import Mathlib

/-!
Shallow embedding of `src/wtfdi.py`, a scope-based dependency-injection
mechanism built on CPython call-frame introspection.

Modelling decisions, each anchored to the source:

* Python dicts with string keys are association lists (`Dict V`), with
  first-match lookup; `Dict.set` models `d[k] = v` (update in place, append
  when fresh), `Dict.union` models `a | b` (right operand's values win, left
  operand's key order first), `Dict.keys` models `d.keys()`.
* A call frame (`PyFrame`) is modelled by its `f_locals` restricted to the
  single key `DEP_VAR = "__wtfdi_deps__"`: that is the only key the core ever
  reads or writes (`wtfdi.py` lines 44, 45, 55, 59, 66).  A frame chain is a
  `List (PyFrame V)` whose head is the frame itself and whose tail is the
  `f_back` chain; the chain is empty when the frame object itself is `None`.
* `_build_dependencies` (lines 41-46) contains a `while frame.f_back:` loop
  whose body never rebinds `frame`; the embedding makes this loop explicit
  (`buildDepsLoop`) with a fuel parameter, and divergence of the Python loop
  is rendered as the function returning `none` for every amount of fuel.
* `context` (lines 49-59) is split into its entry effect (`contextEnter`:
  compute `outer_dependencies`, store `outer | deps` under `DEP_VAR` in the
  caller's frame) and its `finally` effect (`contextExit`: `pop(DEP_VAR)`).
  Entry on an absent caller frame is `none`: the Python code would fail on
  attribute access, the fatal configuration case.
* A Python callable is `PyFunc`: its `__name__`-style identity tag, its
  `__annotations__` dict where each annotation object is represented by the
  value of `getattr(anno, "__name__", None)`, and its behaviour `impl` on
  positional arguments plus a keyword dict.
* `_resolve_dependencies` (lines 76-81) filters the annotations whose
  annotation object has `__name__ == "Depends"`.
* `_wrapper` (lines 64-71) reads `DEP_VAR` from the single frame
  `inspect.currentframe().f_back` (the head of the caller chain), iterates
  the resolved dependency names failing on the first one absent from that
  source (`wrapperLoop`), overwrites `kwargs` entries with the resolved
  values, and finally calls through to the target.  Exceptions are rendered
  with `Except`.
* `DependencyNotFoundError` (lines 12-30) keeps its three attributes plus
  `keyErrorArgs`, the argument tuple passed to `super().__init__(name)`;
  the Python class hierarchy relevant to it is reproduced in
  `PyExcClass`/`pyBase` (KeyError inherits LookupError inherits Exception
  in Python; line 12 declares DependencyNotFoundError a KeyError).
-/

namespace Wtfdi

/-- Python dict with string keys, as an association list with first-match
lookup.  All dicts built by the code have unique keys. -/
abbrev Dict (V : Type) : Type := List (String × V)

/-- Dict lookup: models both `k in d` (result `isSome`) and `d[k]`. -/
def Dict.get? {V : Type} (d : Dict V) (k : String) : Option V :=
  match d with
  | [] => none
  | (k1, v) :: rest => if k1 = k then some v else Dict.get? rest k

/-- Models Python `d[k] = v`: replace the value of an existing key in place,
append the pair when the key is fresh. -/
def Dict.set {V : Type} (d : Dict V) (k : String) (v : V) : Dict V :=
  match d with
  | [] => [(k, v)]
  | (k1, v1) :: rest =>
    if k1 = k then (k1, v) :: rest else (k1, v1) :: Dict.set rest k v

/-- Models Python `a | b`: keys of `a` first (values overridden by `b` where
present), then the keys of `b` not already in `a`. -/
def Dict.union {V : Type} (a b : Dict V) : Dict V :=
  (a.map fun p =>
    match Dict.get? b p.1 with
    | some v => (p.1, v)
    | none => p)
    ++ b.filter fun p => (Dict.get? a p.1).isNone

/-- Models Python `d.keys()`. -/
def Dict.keys {V : Type} (d : Dict V) : List String := d.map Prod.fst

/-- Decidable equality of `Except` values, used to evaluate the concrete
call scenarios. -/
instance exceptDecEq {E A : Type} [DecidableEq E] [DecidableEq A] :
    DecidableEq (Except E A) := fun a b =>
  match a, b with
  | Except.ok x, Except.ok y =>
    if h : x = y then Decidable.isTrue (by rw [h])
    else Decidable.isFalse (fun hh => h (Except.ok.inj hh))
  | Except.error x, Except.error y =>
    if h : x = y then Decidable.isTrue (by rw [h])
    else Decidable.isFalse (fun hh => h (Except.error.inj hh))
  | Except.ok _, Except.error _ => Decidable.isFalse (fun hh => Except.noConfusion hh)
  | Except.error _, Except.ok _ => Decidable.isFalse (fun hh => Except.noConfusion hh)

/-- The frame-local variable name used by the core (`wtfdi.py` line 8). -/
def DEP_VAR : String := "__wtfdi_deps__"

/-- A Python call frame, restricted to the only part of `f_locals` the core
touches: the optional binding of `DEP_VAR`.  `depVar = none` models the key
being absent. -/
structure PyFrame (V : Type) where
  depVar : Option (Dict V)
deriving DecidableEq

/-- The `while frame.f_back:` loop of `_build_dependencies` (lines 43-45).
The Python body checks `DEP_VAR in frame.f_locals` and appends
`frame.f_locals[DEP_VAR]`, but never rebinds `frame`, so both the loop
condition `hasBack` and the frame `f` stay constant across iterations.
`fuel` bounds the number of iterations; `none` means the fuel ran out, and
`(∀ fuel, ... = none)` renders divergence of the Python loop. -/
def buildDepsLoop {V : Type} (fuel : Nat) (f : PyFrame V) (hasBack : Bool)
    (acc : List (Dict V)) : Option (List (Dict V)) :=
  if hasBack then
    match fuel with
    | 0 => none
    | Nat.succ fuel1 =>
      buildDepsLoop fuel1 f hasBack
        (match f.depVar with
         | some d => acc ++ [d]
         | none => acc)
  else
    some acc

/-- Embedding of `_build_dependencies` (lines 41-46): run the loop, then
`reduce(lambda a, b: a | b, dependencies, {})`.  The empty chain models the
frame argument being `None` (attribute error in Python). -/
def _build_dependencies {V : Type} (fuel : Nat) (frames : List (PyFrame V)) :
    Option (Dict V) :=
  match frames with
  | [] => none
  | f :: rest =>
    (buildDepsLoop fuel f (!rest.isEmpty) []).map fun ds => ds.foldl Dict.union []

/-- Entry half of `context` (lines 49-55): on the caller's frame, compute
`outer_dependencies = _build_dependencies(frame)` and execute
`frame.f_locals[DEP_VAR] = outer_dependencies | deps`.  `none` models
non-termination of `_build_dependencies` or an untrackable caller frame. -/
def contextEnter {V : Type} (fuel : Nat) (frames : List (PyFrame V))
    (deps : Dict V) : Option (List (PyFrame V)) :=
  match frames with
  | [] => none
  | f :: rest =>
    match _build_dependencies fuel (f :: rest) with
    | none => none
    | some outer => some (⟨some (Dict.union outer deps)⟩ :: rest)

/-- Exit half of `context` (lines 58-59): the `finally` block executes
`frame.f_locals.pop(DEP_VAR)` on the same caller frame, whether the scope
body finished normally or raised. -/
def contextExit {V : Type} (frames : List (PyFrame V)) : List (PyFrame V) :=
  match frames with
  | [] => []
  | _ :: rest => ⟨none⟩ :: rest

/-- The `__name__` of the `Depends` type alias (line 9): annotating a
parameter with `Depends` attaches an annotation object whose
`getattr(anno, "__name__", None)` is `"Depends"`. -/
def Depends : Option String := some "Depends"

/-- A Python callable as the wrapper sees it: an identity tag (its declared
name, used in error diagnostics), its `__annotations__` dict with every
annotation object represented by `getattr(anno, "__name__", None)`, and its
behaviour on positional arguments plus a keyword dict. -/
structure PyFunc (V R : Type) where
  name : String
  annotations : List (String × Option String)
  impl : List V → Dict V → R

/-- The exception of lines 12-30.  `keyErrorArgs` is the argument tuple the
constructor forwards to `KeyError` via `super().__init__(name)`. -/
structure DependencyNotFoundError where
  name : String
  func : String
  available : List String
  keyErrorArgs : List String
deriving DecidableEq

/-- The `__init__` of `DependencyNotFoundError` (lines 15-30): store the
three attributes and pass the missing name to the `KeyError` constructor.
The class defines no other writes to these attributes. -/
def DependencyNotFoundError.init (name func : String)
    (available : List String) : DependencyNotFoundError :=
  ⟨name, func, available, [name]⟩

/-- Embedding of `_resolve_dependencies` (lines 76-81): the names in
`__annotations__` whose annotation object has `__name__ == "Depends"`. -/
def _resolve_dependencies {V R : Type} (f : PyFunc V R) : List String :=
  (f.annotations.filter fun p => p.2 == some "Depends").map Prod.fst

/-- The source dict the wrapper reads (line 65-66):
`inspect.currentframe().f_back` is the head of the caller chain, and
`source = frame.f_locals.get(DEP_VAR, {})`. -/
def effectiveSource {V : Type} (frames : List (PyFrame V)) : Dict V :=
  match frames with
  | [] => []
  | f :: _ => f.depVar.getD []

/-- The `for dep in _resolve_dependencies(func):` loop of lines 67-70:
raise `DependencyNotFoundError(dep, func, source.keys())` at the first name
absent from `source`, otherwise execute `kwargs[dep] = source[dep]` and
continue. -/
def wrapperLoop {V : Type} (funcName : String) (deps : List String)
    (source kwargs : Dict V) : Except DependencyNotFoundError (Dict V) :=
  match deps with
  | [] => Except.ok kwargs
  | d :: rest =>
    match Dict.get? source d with
    | none => Except.error (DependencyNotFoundError.init d funcName (Dict.keys source))
    | some v => wrapperLoop funcName rest source (Dict.set kwargs d v)

/-- The resolution part of `_wrapper`: the final keyword dict (or the error)
produced by lines 65-70 before the call on line 71. -/
def resolveInjected {V R : Type} (f : PyFunc V R) (frames : List (PyFrame V))
    (kwargs : Dict V) : Except DependencyNotFoundError (Dict V) :=
  wrapperLoop f.name (_resolve_dependencies f) (effectiveSource frames) kwargs

/-- Embedding of `_wrapper` (lines 64-71), the callable returned by
`with_context(func)`: resolve, then `return func(*args, **kwargs)`. -/
def _wrapper {V R : Type} (f : PyFunc V R) (frames : List (PyFrame V))
    (args : List V) (kwargs : Dict V) : Except DependencyNotFoundError R :=
  match resolveInjected f frames kwargs with
  | Except.error e => Except.error e
  | Except.ok kw => Except.ok (f.impl args kw)

/-- The Python exception classes relevant to `DependencyNotFoundError`. -/
inductive PyExcClass
  | exceptionClass
  | lookupErrorClass
  | keyErrorClass
  | dependencyNotFoundErrorClass
deriving DecidableEq

/-- Direct base class: line 12 declares `DependencyNotFoundError(KeyError)`;
`KeyError`'s bases `LookupError` and `Exception` are Python builtins. -/
def pyBase : PyExcClass → Option PyExcClass
  | PyExcClass.dependencyNotFoundErrorClass => some PyExcClass.keyErrorClass
  | PyExcClass.keyErrorClass => some PyExcClass.lookupErrorClass
  | PyExcClass.lookupErrorClass => some PyExcClass.exceptionClass
  | PyExcClass.exceptionClass => none

/-- The chain of ancestors of a class, following `pyBase` (fuel-bounded;
the hierarchy here has depth at most four). -/
def ancestorChain : Nat → Option PyExcClass → List PyExcClass
  | _, none => []
  | 0, some _ => []
  | Nat.succ n, some c => c :: ancestorChain n (pyBase c)

/-- An `except H:` handler catches a raised instance of class `raised`
exactly when `H` is `raised` itself or one of its base classes. -/
abbrev catches (handler raised : PyExcClass) : Prop :=
  handler ∈ ancestorChain 8 (some raised)

/-- A module-level frame: `DEP_VAR` not bound, `f_back = None` (the only
situation in which `_build_dependencies` returns at all, as in the demo at
the bottom of `wtfdi.py`). -/
def moduleFrame : PyFrame Nat := ⟨none⟩

/-- A wrapped target with the single dependency-marked parameter `n`,
mirroring the shape of `say_hello` (line 85). -/
def needsN : PyFunc Nat Nat :=
  ⟨"needsN", [("n", Depends)], fun _ kw => (Dict.get? kw "n").getD 0⟩

/-- A wrapped target with an ordinary parameter and the dependency-marked
parameter `logger`, mirroring `say_hello(to_who, logger: Depends)`. -/
def greet : PyFunc Nat Nat :=
  ⟨"greet", [("to_who", none), ("logger", Depends)], fun _ kw => (Dict.get? kw "logger").getD 0⟩

/-- A wrapped target with three dependency-marked parameters, to exercise
the fail-fast order of the resolution loop. -/
def probe : PyFunc Nat Nat :=
  ⟨"probe", [("a", Depends), ("b", Depends), ("c", Depends)], fun _ _ => 0⟩

/-- A wrapped target with no dependency-marked parameter (its annotations
carry `__name__`s other than `"Depends"`). -/
def plainAdd : PyFunc Nat Nat :=
  ⟨"plainAdd", [("x", none), ("y", some "int")],
    fun args kw => args.headD 0 + (Dict.get? kw "y").getD 0⟩

/-- A function whose declared return type is the `Depends` alias, so its
`__annotations__` dict contains the entry `"return" ↦ Depends`. -/
def retDep : PyFunc Nat Nat :=
  ⟨"retDep", [("x", some "int"), ("return", Depends)], fun _ _ => 0⟩

/-! Helper lemmas about the dict operations and the wrapper loop. -/

theorem Dict.get_set_self {V : Type} (d : Dict V) (k : String) (v : V) :
    Dict.get? (Dict.set d k v) k = some v := by
  induction d with
  | nil => simp [Dict.set, Dict.get?]
  | cons p rest ih =>
    obtain ⟨k1, v1⟩ := p
    by_cases h : k1 = k
    · subst h
      simp [Dict.set, Dict.get?]
    · simp [Dict.set, Dict.get?, h, ih]

theorem Dict.get_set_ne {V : Type} (d : Dict V) (k q : String) (v : V)
    (h : q ≠ k) : Dict.get? (Dict.set d k v) q = Dict.get? d q := by
  have hk : ¬ k = q := fun hh => h hh.symm
  induction d with
  | nil => simp [Dict.set, Dict.get?, hk]
  | cons p rest ih =>
    obtain ⟨k1, v1⟩ := p
    by_cases h1 : k1 = k
    · subst h1
      simp [Dict.set, Dict.get?, hk]
    · simp [Dict.set, Dict.get?, h1, ih]

theorem buildDepsLoop_hasBack_none {V : Type} (fuel : Nat) (f : PyFrame V) :
    ∀ acc : List (Dict V), buildDepsLoop fuel f true acc = none := by
  induction fuel with
  | zero => intro acc; simp [buildDepsLoop]
  | succ n ih => intro acc; simp only [buildDepsLoop, if_true]; exact ih _

theorem wrapperLoop_first_missing {V : Type} (fn m : String) (source : Dict V)
    (post : List String) :
    ∀ (pre : List String) (kwargs : Dict V),
      (∀ d ∈ pre, (Dict.get? source d).isSome = true) →
      Dict.get? source m = none →
      wrapperLoop fn (pre ++ m :: post) source kwargs
        = Except.error (DependencyNotFoundError.init m fn (Dict.keys source)) := by
  intro pre
  induction pre with
  | nil =>
    intro kwargs _ hm
    simp [wrapperLoop, hm]
  | cons d ds ih =>
    intro kwargs hpre hm
    have hd : (Dict.get? source d).isSome = true := hpre d (by simp)
    obtain ⟨v, hv⟩ := Option.isSome_iff_exists.mp hd
    simp only [List.cons_append, wrapperLoop, hv]
    exact ih _ (fun x hx => hpre x (by simp [hx])) hm

theorem wrapperLoop_ok_not_mem {V : Type} (fn : String) (source : Dict V)
    (q : String) :
    ∀ (deps : List String) (kwargs kw2 : Dict V), q ∉ deps →
      wrapperLoop fn deps source kwargs = Except.ok kw2 →
      Dict.get? kw2 q = Dict.get? kwargs q := by
  intro deps
  induction deps with
  | nil =>
    intro kwargs kw2 _ hok
    simp only [wrapperLoop, Except.ok.injEq] at hok
    rw [hok]
  | cons e es ih =>
    intro kwargs kw2 hmem hok
    have hne : q ≠ e := fun h => hmem (by simp [h])
    have hmes : q ∉ es := fun h => hmem (by simp [h])
    cases hget : Dict.get? source e with
    | none => simp [wrapperLoop, hget] at hok
    | some v =>
      simp only [wrapperLoop, hget] at hok
      rw [ih _ _ hmes hok, Dict.get_set_ne _ _ _ _ hne]

theorem wrapperLoop_ok_mem {V : Type} (fn q : String) (source : Dict V)
    (v : V) (hv : Dict.get? source q = some v) :
    ∀ (deps : List String) (kwargs kw2 : Dict V), q ∈ deps →
      wrapperLoop fn deps source kwargs = Except.ok kw2 →
      Dict.get? kw2 q = some v := by
  intro deps
  induction deps with
  | nil => intro kwargs kw2 hmem; exact absurd hmem (List.not_mem_nil q)
  | cons e es ih =>
    intro kwargs kw2 hmem hok
    cases hget : Dict.get? source e with
    | none => simp [wrapperLoop, hget] at hok
    | some ve =>
      simp only [wrapperLoop, hget] at hok
      by_cases hmes : q ∈ es
      · exact ih _ _ hmes hok
      · have hqe : q = e := by
          rcases List.mem_cons.mp hmem with h | h
          · exact h
          · exact absurd h hmes
        subst hqe
        have hvv : ve = v := by
          rw [hv] at hget
          exact (Option.some.inj hget).symm
        rw [wrapperLoop_ok_not_mem fn source q es _ _ hmes hok,
          Dict.get_set_self, hvv]

theorem wrapperLoop_missing_mem_error {V : Type} (fn q : String)
    (source : Dict V) (hq : Dict.get? source q = none) :
    ∀ (deps : List String) (kwargs : Dict V), q ∈ deps →
      ∃ e, wrapperLoop fn deps source kwargs = Except.error e := by
  intro deps
  induction deps with
  | nil => intro kwargs hmem; exact absurd hmem (List.not_mem_nil q)
  | cons d ds ih =>
    intro kwargs hmem
    cases hget : Dict.get? source d with
    | none =>
      exact ⟨DependencyNotFoundError.init d fn (Dict.keys source),
        by simp [wrapperLoop, hget]⟩
    | some v =>
      have hqd : q ≠ d := fun h => by rw [h, hget] at hq; simp at hq
      have hmds : q ∈ ds := by
        rcases List.mem_cons.mp hmem with h | h
        · exact absurd h hqd
        · exact h
      obtain ⟨e, he⟩ := ih (Dict.set kwargs d v) hmds
      exact ⟨e, by simp only [wrapperLoop, hget]; exact he⟩

theorem resolve_dependencies_nil {V R : Type} (f : PyFunc V R)
    (h : ∀ p ∈ f.annotations, ¬ p.2 = some "Depends") :
    _resolve_dependencies f = [] := by
  unfold _resolve_dependencies
  have hfil : ∀ l : List (String × Option String),
      (∀ p ∈ l, ¬ p.2 = some "Depends") →
      l.filter (fun p => p.2 == some "Depends") = [] := by
    intro l
    induction l with
    | nil => intro _; rfl
    | cons p rest ih =>
      intro hl
      simp only [List.filter_cons]
      rw [if_neg (by simp [hl p (by simp)])]
      exact ih (fun q hq => hl q (by simp [hq]))
  rw [hfil f.annotations h]
  rfl

/-! Claim theorems. -/

/-- Claim C1.  The claim says: with an outer scope binding `n ↦ b1[n]` and a
nested inner scope rebinding `n ↦ b2[n]`, a wrapped function resolves `n` to
`b2[n]` while the inner scope is active, and back to `b1[n]` after the inner
scope exits.  The code violates the second half: in the only terminating
configuration (both scopes opened in a frame with `f_back = None`), the inner
scope's `finally` block pops `DEP_VAR` from the shared frame entirely, so
after the inner exit the wrapped call raises `DependencyNotFoundError`
instead of resolving `n` to `b1[n] = 1`.  The inner-scope half does hold
(the call yields `2`). -/
theorem nested_scope_restoration_bug :
    (contextEnter 5 [moduleFrame] [("n", 1)]).bind (fun s1 =>
      (contextEnter 5 s1 [("n", 2)]).map (fun s2 =>
        (_wrapper needsN s2 [] [], _wrapper needsN (contextExit s2) [] [])))
      = some (Except.ok 2,
          Except.error (DependencyNotFoundError.init "n" "needsN" []))
    ∧ (Except.error (DependencyNotFoundError.init "n" "needsN" [])
        : Except DependencyNotFoundError Nat) ≠ Except.ok 1 := by
  decide

/-- Claim C2.  The claim says a wrapped function resolves dependencies from
the nearest dynamically enclosing scope even when an intermediate, unwrapped
call separates the scope body from the wrapped call.  The code violates
this: `_wrapper` reads `DEP_VAR` only from `inspect.currentframe().f_back`,
the immediate caller's frame.  With the scope's `DEP_VAR` sitting one frame
further down (head of the chain is the intermediate function's frame), the
call raises `DependencyNotFoundError("logger", greet, dict_keys([]))`; the
same call made directly from the scope's frame succeeds with `logger = 7`. -/
theorem intermediate_call_injection_bug :
    _wrapper greet [⟨none⟩, ⟨some [("logger", 7)]⟩] [5] []
      = Except.error (DependencyNotFoundError.init "logger" "greet" [])
    ∧ _wrapper greet [⟨some [("logger", 7)]⟩] [5] [] = Except.ok 7 := by
  decide

/-- Claim C3, confirmed.  When the dependency list of `f` splits as
`pre ++ m :: post` with every name of `pre` present in the effective context
and `m` absent, the wrapped call fails with
`DependencyNotFoundError(m, f, keys(source))` — the first missing name, the
available key set (empty when no scope is open since then
`source = {}`), and independence from the target's body (the second
conjunct: any other body yields the same error, so the target is never
executed and nothing past `m` is resolved). -/
theorem missing_dependency_fail_fast {V R : Type} (f : PyFunc V R)
    (frames : List (PyFrame V)) (args : List V) (kwargs : Dict V)
    (pre post : List String) (m : String)
    (hdeps : _resolve_dependencies f = pre ++ m :: post)
    (hpre : ∀ d ∈ pre, (Dict.get? (effectiveSource frames) d).isSome = true)
    (hm : Dict.get? (effectiveSource frames) m = none) :
    _wrapper f frames args kwargs
      = Except.error (DependencyNotFoundError.init m f.name
          (Dict.keys (effectiveSource frames)))
    ∧ ∀ impl2 : List V → Dict V → R,
        _wrapper ⟨f.name, f.annotations, impl2⟩ frames args kwargs
          = Except.error (DependencyNotFoundError.init m f.name
              (Dict.keys (effectiveSource frames))) := by
  have hres : resolveInjected f frames kwargs
      = Except.error (DependencyNotFoundError.init m f.name
          (Dict.keys (effectiveSource frames))) := by
    unfold resolveInjected
    rw [hdeps]
    exact wrapperLoop_first_missing f.name m (effectiveSource frames) post
      pre kwargs hpre hm
  constructor
  · unfold _wrapper
    rw [hres]
  · intro impl2
    have hres2 : resolveInjected (⟨f.name, f.annotations, impl2⟩ : PyFunc V R)
        frames kwargs
        = Except.error (DependencyNotFoundError.init m f.name
            (Dict.keys (effectiveSource frames))) := by
      unfold resolveInjected
      have hsame : _resolve_dependencies
          (⟨f.name, f.annotations, impl2⟩ : PyFunc V R)
          = _resolve_dependencies f := rfl
      rw [hsame, hdeps]
      exact wrapperLoop_first_missing f.name m (effectiveSource frames) post
        pre kwargs hpre hm
    unfold _wrapper
    rw [hres2]

/-- Witness for C3: `probe` requires `a`, `b`, `c`; with only `a` bound the
call fails naming `b` (the first missing name) and reporting `["a"]` as
available. -/
theorem missing_dependency_fail_fast_witness :
    _wrapper probe [⟨some [("a", 1)]⟩] [] []
      = Except.error (DependencyNotFoundError.init "b" "probe" ["a"]) :=
  (missing_dependency_fail_fast probe [⟨some [("a", 1)]⟩] [] [] ["a"] ["c"] "b"
    (by decide) (by decide) (by decide)).1

/-- Claim C4.  The claim says scope entry always terminates, in particular
when the opening call site itself has a caller.  The code violates this:
the `while frame.f_back:` loop in `_build_dependencies` never rebinds
`frame`, so whenever the frame chain has length at least two the loop
condition never changes and the loop runs forever.  Rendered with fuel: no
amount of fuel makes `_build_dependencies` (and hence scope entry) return. -/
theorem scope_entry_diverges {V : Type} (fuel : Nat) (f g : PyFrame V)
    (rest : List (PyFrame V)) (deps : Dict V) :
    _build_dependencies fuel (f :: g :: rest) = none
    ∧ contextEnter fuel (f :: g :: rest) deps = none := by
  have hb : _build_dependencies fuel (f :: g :: rest) = none := by
    unfold _build_dependencies
    simp only [List.isEmpty_cons, Bool.not_false]
    rw [buildDepsLoop_hasBack_none]
    rfl
  refine ⟨hb, ?_⟩
  simp only [contextEnter, hb]

/-- Witness for C4 at a concrete chain of two frames and concrete fuel. -/
theorem scope_entry_diverges_witness :
    _build_dependencies 1000 [(⟨none⟩ : PyFrame Nat), ⟨none⟩] = none
    ∧ contextEnter 1000 [(⟨none⟩ : PyFrame Nat), ⟨none⟩] [("x", 1)] = none :=
  scope_entry_diverges 1000 ⟨none⟩ ⟨none⟩ [] [("x", 1)]

/-- Claim C5, confirmed.  A callable none of whose annotations is the
`Depends` marker resolves to an empty dependency list, so the wrapped call
never raises and returns exactly the underlying call on the same positional
and keyword arguments, whatever scope state is active. -/
theorem zero_dependencies_pass_through {V R : Type} (f : PyFunc V R)
    (h : ∀ p ∈ f.annotations, ¬ p.2 = some "Depends")
    (frames : List (PyFrame V)) (args : List V) (kwargs : Dict V) :
    _wrapper f frames args kwargs = Except.ok (f.impl args kwargs) := by
  unfold _wrapper resolveInjected
  rw [resolve_dependencies_nil f h]
  rfl

/-- Witness for C5: `plainAdd` wrapped, called with no scope open, returns
the plain result `3 + 4`. -/
theorem zero_dependencies_pass_through_witness :
    _wrapper plainAdd [⟨none⟩] [3] [("y", 4)] = Except.ok (plainAdd.impl [3] [("y", 4)]) :=
  zero_dependencies_pass_through plainAdd (by decide) [⟨none⟩] [3] [("y", 4)]

/-- Claim C6.  The claim says that on scope exit (normal or exceptional)
exactly the pushed layer is removed and the previously visible effective
context is restored exactly.  The code violates this: the `finally` block
runs `frame.f_locals.pop(DEP_VAR)`, which removes the variable wholesale
rather than restoring its previous value, so after a nested scope in the
same frame exits, the effective context is empty instead of the outer
scope's `{a: 10}`. -/
theorem scope_exit_restoration_bug :
    (contextEnter 5 [moduleFrame] [("a", 10)]).bind (fun s1 =>
      (contextEnter 5 s1 [("a", 20), ("b", 30)]).map (fun s2 =>
        (effectiveSource s1, effectiveSource (contextExit s2))))
      = some ([("a", 10)], [])
    ∧ ([("a", 10)] : Dict Nat) ≠ [] := by
  decide

/-- Claim C7, confirmed.  Resolution and the injected call are pure
functions of the effective context and the callable's dependency name list:
equal effective contexts give equal resolved bindings and equal call
results, and any callable with the same name tag and the same dependency
list resolves identically — no other state enters the computation. -/
theorem resolution_deterministic {V R : Type} (f : PyFunc V R)
    (frames1 frames2 : List (PyFrame V)) (args : List V) (kwargs : Dict V)
    (h : effectiveSource frames1 = effectiveSource frames2) :
    resolveInjected f frames1 kwargs = resolveInjected f frames2 kwargs
    ∧ _wrapper f frames1 args kwargs = _wrapper f frames2 args kwargs
    ∧ ∀ (R2 : Type) (g : PyFunc V R2), g.name = f.name →
        _resolve_dependencies g = _resolve_dependencies f →
        resolveInjected g frames1 kwargs = resolveInjected f frames1 kwargs := by
  have h1 : resolveInjected f frames1 kwargs = resolveInjected f frames2 kwargs := by
    unfold resolveInjected
    rw [h]
  refine ⟨h1, ?_, ?_⟩
  · unfold _wrapper
    rw [h1]
  · intro R2 g hname hdeps
    unfold resolveInjected
    rw [hname, hdeps]

/-- Witness for C7: the same call made under two different frame chains with
the same effective context (the deeper chain has an extra stale layer below)
resolves identically. -/
theorem resolution_deterministic_witness :
    _wrapper needsN [(⟨some [("n", 5)]⟩ : PyFrame Nat)] [] []
      = _wrapper needsN [⟨some [("n", 5)]⟩, ⟨some [("n", 99)]⟩] [] [] :=
  (resolution_deterministic needsN [⟨some [("n", 5)]⟩]
    [⟨some [("n", 5)]⟩, ⟨some [("n", 99)]⟩] [] [] (by decide)).2.1

/-- Claim C8, confirmed.  When a dependency-marked name is bound both in
the effective context (to `v`) and in the caller's explicit keyword
arguments (to `w`), the loop's `kwargs[dep] = source[dep]` overwrites the
caller's value: the keyword dict actually passed to the target maps the
name to the context's `v`. -/
theorem injected_overrides_kwargs {V R : Type} (f : PyFunc V R)
    (frames : List (PyFrame V)) (args : List V) (kwargs : Dict V)
    (d : String) (v w : V) (kw2 : Dict V)
    (hd : d ∈ _resolve_dependencies f)
    (hv : Dict.get? (effectiveSource frames) d = some v)
    (hw : Dict.get? kwargs d = some w)
    (hok : resolveInjected f frames kwargs = Except.ok kw2) :
    Dict.get? kw2 d = some v
    ∧ _wrapper f frames args kwargs = Except.ok (f.impl args kw2) := by
  have hok2 : wrapperLoop f.name (_resolve_dependencies f)
      (effectiveSource frames) kwargs = Except.ok kw2 := hok
  constructor
  · exact wrapperLoop_ok_mem f.name d (effectiveSource frames) v hv
      (_resolve_dependencies f) kwargs kw2 hd hok2
  · unfold _wrapper
    rw [hok]

/-- Witness for C8: `greet` called with explicit `logger = 3` under a scope
binding `logger = 7` receives `7`. -/
theorem injected_overrides_kwargs_witness :
    Dict.get? [("logger", 7)] "logger" = some 7
    ∧ _wrapper greet [⟨some [("logger", 7)]⟩] [5] [("logger", 3)]
      = Except.ok (greet.impl [5] [("logger", 7)]) :=
  injected_overrides_kwargs greet [⟨some [("logger", 7)]⟩] [5] [("logger", 3)]
    "logger" 7 3 [("logger", 7)] (by decide) (by decide) (by decide) (by decide)

/-- Claim C9, confirmed.  `DependencyNotFoundError` inherits from
`KeyError` (so an `except KeyError:` handler catches it — `KeyError` is in
the ancestor chain of `DependencyNotFoundError`), its constructor forwards
the missing name to the `KeyError` constructor, and its `name`, `func` and
`available` attributes are exactly the constructor arguments; the class
defines no other assignment to them. -/
theorem dependency_error_fields_and_subclass (n fn : String) (av : List String) :
    catches PyExcClass.keyErrorClass PyExcClass.dependencyNotFoundErrorClass
    ∧ (DependencyNotFoundError.init n fn av).name = n
    ∧ (DependencyNotFoundError.init n fn av).func = fn
    ∧ (DependencyNotFoundError.init n fn av).available = av
    ∧ (DependencyNotFoundError.init n fn av).keyErrorArgs = [n] :=
  ⟨by decide, rfl, rfl, rfl, rfl⟩

/-- Witness for C9 at concrete constructor arguments. -/
theorem dependency_error_fields_and_subclass_witness :
    catches PyExcClass.keyErrorClass PyExcClass.dependencyNotFoundErrorClass
    ∧ (DependencyNotFoundError.init "logger" "say_hello" []).name = "logger"
    ∧ (DependencyNotFoundError.init "logger" "say_hello" []).func = "say_hello"
    ∧ (DependencyNotFoundError.init "logger" "say_hello" []).available = []
    ∧ (DependencyNotFoundError.init "logger" "say_hello" []).keyErrorArgs = ["logger"] :=
  dependency_error_fields_and_subclass "logger" "say_hello" []

/-- Claim C10, confirmed.  Extraction filters the whole `__annotations__`
dict by the annotation object's `__name__`, with no special case for the
`"return"` key, so a declared return type of `Depends` makes `"return"` a
member of the dependency list; consequently every call made while
`"return"` is absent from the effective context raises. -/
theorem return_annotation_is_dependency {V R : Type} (f : PyFunc V R)
    (hret : ("return", (some "Depends" : Option String)) ∈ f.annotations) :
    "return" ∈ _resolve_dependencies f
    ∧ ∀ (frames : List (PyFrame V)) (args : List V) (kwargs : Dict V),
        Dict.get? (effectiveSource frames) "return" = none →
        ∃ e, _wrapper f frames args kwargs = Except.error e := by
  have hmem : "return" ∈ _resolve_dependencies f := by
    unfold _resolve_dependencies
    exact List.mem_map.mpr ⟨("return", some "Depends"),
      List.mem_filter.mpr ⟨hret, by simp⟩, rfl⟩
  refine ⟨hmem, ?_⟩
  intro frames args kwargs hnone
  obtain ⟨e, he⟩ := wrapperLoop_missing_mem_error f.name "return"
    (effectiveSource frames) hnone (_resolve_dependencies f) kwargs hmem
  refine ⟨e, ?_⟩
  have he2 : resolveInjected f frames kwargs = Except.error e := he
  unfold _wrapper
  rw [he2]

/-- Witness for C10: `retDep` declares return type `Depends`; `"return"` is
extracted as a dependency and the call with no scope open fails. -/
theorem return_annotation_is_dependency_witness :
    "return" ∈ _resolve_dependencies retDep
    ∧ ∃ e, _wrapper retDep [(⟨none⟩ : PyFrame Nat)] [] [] = Except.error e :=
  ⟨(return_annotation_is_dependency retDep (by decide)).1,
   (return_annotation_is_dependency retDep (by decide)).2 [⟨none⟩] [] [] (by decide)⟩

end Wtfdi
